import Mathlib

/-!
Verification of the MuSig2 signing subsystem of the wallet service
(crate `mpc`: `src/mpc/src/main.rs`, `src/mpc/src/db.rs`,
`src/mpc/src/error.rs`, `src/mpc/src/serialization.rs`) against its
natural-language specification.

Shallow-embedding conventions:
* base58/JSON round-trips are modelled as identities (values are stored
  directly instead of their encodings); both encodings are injective and
  only ever decoded by the same code that encoded them;
* `Pubkey`, `Keypair` and transaction signatures are modelled as strings
  (the code converts them to / from strings at every boundary);
* timestamps are natural numbers counting seconds, so `Duration::minutes(5)`
  is `5 * 60`;
* `f64` amounts are modelled exactly as rationals;
* a Rust `.unwrap()` on an error/none is modelled as the distinguished
  `RunResult.panicked` outcome (an actix handler that panics produces a
  500 response, not one of the `Error` values);
* database transport failures (a lost connection etc.) are not modelled:
  every query reaches the store.  `fetch_one` finding no row is modelled
  faithfully (it is an application-level outcome, not a transport failure).
-/

namespace Mpc

/-- Solana public keys, modelled by their base58 string rendering
(the code stores them as `TEXT` and re-parses with `Pubkey::from_str`). -/
abbrev Pubkey := String

/-- Session identifiers (`uuid::Uuid`), modelled as naturals. -/
abbrev Uuid := Nat

/-- Recent blockhashes (`solana_sdk::hash::Hash`), modelled as naturals. -/
abbrev Blockhash := Nat

/-- A MuSig2 partial signature (`serialization::PartialSignature`),
modelled abstractly as a natural. -/
abbrev PartialSig := Nat

/-- Rust `serialization::SecretAggStepOne`: the private and public partial
nonces produced by `tss::step_one`, both modelled abstractly. -/
structure SecretAggStepOne where
  private_nonces : Nat
  public_nonces : Nat
deriving Repr, DecidableEq

/-- Rust `serialization::AggMessage1`: the round-1 broadcast
`{sender, public_nonces}`. -/
structure AggMessage1 where
  sender : Pubkey
  public_nonces : Nat
deriving Repr, DecidableEq

/-- Rust `error::Error` (src/mpc/src/error.rs).  Constructor payloads that no
claim inspects are dropped.  Note the enum has no
`SessionAlreadyFinalized` variant. -/
inductive Error where
  | DeserializationFailed
  | MismatchMessages
  | InvalidSignature
  | KeyPairIsNotInKeys
  | DatabaseError
  | SolanaClientError
  | IoError
  | SessionNotFound
  | KeyNotFound
  | InvalidRequest (msg : String)
deriving Repr, DecidableEq

/-- The outcome of one handler invocation: an HTTP-level success, one of
the crate's `Error` values, or a panic (a Rust `.unwrap()` failing, which
actix surfaces as a 500, not as an `Error`). -/
inductive RunResult (α : Type) where
  | ok (a : α)
  | err (e : Error)
  | panicked
deriving Repr, DecidableEq

/-- Rust `db::MpcKey`: one per-user per-node key-share row of `mpc_keys`. -/
structure MpcKey where
  end_user_pubkey : String
  node_id : Int
  public_key : String
  private_key : String
deriving Repr, DecidableEq

/-- The Solana `Message` values the two handlers build: a single
`system_instruction::transfer` wrapped by `Message::new` with the fee
payer equal to the transfer source, plus the recent blockhash.  The
canonical message serialization is injective, so message bytes are
compared through this structure. -/
structure SolMessage where
  from_pubkey : Pubkey
  to_pubkey : Pubkey
  lamports : Nat
  recent_blockhash : Blockhash
deriving Repr, DecidableEq

/-- Rust `solana_sdk::transaction::Transaction`, reduced to its message (the
only part the handlers read; `Transaction::new_unsigned` wraps a message). -/
structure Transaction where
  message : SolMessage
deriving Repr, DecidableEq

/-- Rust `Transaction::message_data()`: the serialized message bytes (see
`SolMessage` for why bytes are identified with the structure). -/
def Transaction.message_data (t : Transaction) : SolMessage := t.message

/-- Rust `db::MpcSigningSession` together with the `expires_at` column of the
`mpc_signing_sessions` row (the Rust struct omits the column, but the
queries read it).  `secret_state_*`, `agg_message_2` and `transaction`
are stored in the database as JSON; the JSON round-trip is modelled as
the identity, so the fields hold the values themselves. -/
structure MpcSigningSession where
  session_id : Uuid
  end_user_pubkey : String
  secret_state_1 : Option SecretAggStepOne
  secret_state_2 : Option SecretAggStepOne
  partial_sig_2 : Option String
  agg_message_2 : Option AggMessage1
  to_address : String
  amount : ℚ
  memo : Option String
  transaction : Option Transaction
  expires_at : Nat
deriving Repr, DecidableEq

/-- The contents of one node's MPC database (`db::MpcStore`'s two
tables). -/
structure MpcState where
  keys : List MpcKey
  sessions : List MpcSigningSession
deriving Repr, DecidableEq

/-- Row lookup by primary key in `mpc_signing_sessions` (no expiry
condition). -/
def MpcState.findSession (st : MpcState) (id : Uuid) : Option MpcSigningSession :=
  st.sessions.find? (fun s => s.session_id == id)

/-- Rust `MpcStore::get_key`: `SELECT .. FROM mpc_keys WHERE end_user_pubkey =
$1 AND node_id = $2` via `fetch_one`.  A missing row is a
`sqlx::Error::RowNotFound`, which `?` converts through `#[from]` into
`Error::DatabaseError` (not `KeyNotFound`). -/
def MpcState.get_key (st : MpcState) (end_user_pubkey : String) (node_id : Int) :
    Except Error MpcKey :=
  match st.keys.find? (fun k => k.end_user_pubkey == end_user_pubkey && k.node_id == node_id) with
  | some k => .ok k
  | none => .error .DatabaseError

/-- Insertion sort step used to model `ORDER BY node_id`. -/
def insertByNodeId (k : MpcKey) : List MpcKey → List MpcKey
  | [] => [k]
  | x :: xs => if k.node_id ≤ x.node_id then k :: x :: xs else x :: insertByNodeId k xs

/-- Rust `MpcStore::get_keys_for_user`: `SELECT .. FROM mpc_keys WHERE
end_user_pubkey = $1 ORDER BY node_id` via `fetch_all`. -/
def MpcState.get_keys_for_user (st : MpcState) (end_user_pubkey : String) : List MpcKey :=
  (st.keys.filter (fun k => k.end_user_pubkey == end_user_pubkey)).foldr insertByNodeId []

/-- Rust `MpcStore::create_session`: draws a fresh v4 UUID (supplied here as
`session_id`, the recorded random draw), sets `expires_at = Utc::now() +
Duration::minutes(5)` and inserts the row.  `session_id` is the table's
primary key (spec §6), so a conflicting insert surfaces as a database
error; the inserted row carries exactly the given fields, with the
round-2 columns NULL. -/
def MpcState.create_session (st : MpcState) (session_id : Uuid) (now : Nat)
    (end_user_pubkey : String) (secret_state_1 : SecretAggStepOne)
    (to_address : String) (amount : ℚ) (memo : Option String)
    (transaction : Option Transaction) : Except Error (Uuid × MpcState) :=
  let expires_at := now + 5 * 60
  let row : MpcSigningSession :=
    { session_id := session_id, end_user_pubkey := end_user_pubkey,
      secret_state_1 := some secret_state_1, secret_state_2 := none,
      partial_sig_2 := none, agg_message_2 := none,
      to_address := to_address, amount := amount, memo := memo,
      transaction := transaction, expires_at := expires_at }
  if (st.findSession session_id).isSome then .error .DatabaseError
  else .ok (session_id, { st with sessions := row :: st.sessions })

/-- Rust `MpcStore::update_session_with_step2_data`: `UPDATE
mpc_signing_sessions SET secret_state_2 = $1, partial_sig_2 = $2,
agg_message_2 = $3 WHERE session_id = $4` — unconditional on the row's
current contents, and `Ok(())` regardless of how many rows matched. -/
def MpcState.update_session_with_step2_data (st : MpcState) (session_id : Uuid)
    (secret_state_2 : SecretAggStepOne) (partial_sig_2 : String)
    (agg_message_2 : AggMessage1) : Except Error MpcState :=
  .ok { st with
        sessions := st.sessions.map (fun s =>
          if s.session_id == session_id then
            { s with secret_state_2 := some secret_state_2,
                     partial_sig_2 := some partial_sig_2,
                     agg_message_2 := some agg_message_2 }
          else s) }

/-- Rust `MpcStore::get_session`: `SELECT .. FROM mpc_signing_sessions WHERE
session_id = $1 AND expires_at > NOW()` via `fetch_one`;
`RowNotFound` is mapped to `Error::SessionNotFound`. -/
def MpcState.get_session (st : MpcState) (session_id : Uuid) (now : Nat) :
    Except Error MpcSigningSession :=
  match st.sessions.find? (fun s => s.session_id == session_id && decide (now < s.expires_at)) with
  | some s => .ok s
  | none => .error .SessionNotFound

/-- Modelled from the spec: the `tss` module (declared `pub mod tss` in
src/mpc/src/main.rs) is absent from the sources; following spec §4.2 and
§4.5 its deterministic operations are modelled as an oracle structure.
`key_agg` aggregates the public keys (deterministic, may reject bad
input — the callers `.unwrap()` it); `step_two` computes a partial
signature over the message from the given secret nonces, or fails;
`sign_and_broadcast_transaction` sums the partial signatures into the
transaction's signature slot, verifying the aggregate signature and
failing (e.g. `InvalidSignature`) when verification fails.  The
randomized `step_one` is not a field here: the output of the single call
a handler makes is recorded in `Env`. -/
structure Tss where
  key_agg : List Pubkey → Option Pubkey → Except Error Pubkey
  step_two : String → SolMessage → List Pubkey → List AggMessage1 → SecretAggStepOne →
    Except Error PartialSig
  sign_and_broadcast_transaction : Transaction → List Pubkey → List PartialSig →
    Except Error Transaction

/-- The per-invocation environment of a handler: the database clock
(`NOW()` / `Utc::now()`), the fresh UUID drawn by `Uuid::new_v4`, the
result of this call's `rpc_client.get_latest_blockhash()`, the output of
this call's `tss::step_one` (fresh random nonces plus their broadcast
message), and the result of `rpc_client.send_and_confirm_transaction`
(`some sig` on confirmation, `none` for a client error). -/
structure Env where
  new_uuid : Uuid
  now : Nat
  blockhash : Blockhash
  step_one_result : AggMessage1 × SecretAggStepOne
  send_result : Option String

/-- Rust `bs58::encode(partial_signature.0.as_ref()).into_string()`, modelled
by an injective rendering of the abstract signature. -/
def bs58_encode_sig (s : PartialSig) : String := toString s

/-- The `AppState` routed to every handler, reduced to the two per-node
MPC stores (the main store and the RPC client carry no state a claim
mentions; the RPC client's per-call answers live in `Env`). -/
structure AppState where
  mpc_store_1 : MpcState
  mpc_store_2 : MpcState
deriving Repr, DecidableEq

/-- Rust `AppState::get_mpc_store`: node 1 and node 2 select their stores,
anything else is `Error::InvalidRequest("Invalid node_id")`. -/
def AppState.get_mpc_store (app : AppState) (node_id : Int) : Except Error MpcState :=
  if node_id = 1 then .ok app.mpc_store_1
  else if node_id = 2 then .ok app.mpc_store_2
  else .error (.InvalidRequest "Invalid node_id")

/-- Write-back of the store selected by `get_mpc_store` (the Rust code
mutates through the borrowed reference; state threading makes the write
explicit). -/
def AppState.set_mpc_store (app : AppState) (node_id : Int) (st : MpcState) : AppState :=
  if node_id = 1 then { app with mpc_store_1 := st }
  else if node_id = 2 then { app with mpc_store_2 := st }
  else app

/-- Rust `AggSendStep1Request` (src/mpc/src/main.rs lines 42-49).  Note the
struct has `amount: f64` (a SOL amount, modelled exactly as a rational)
and *no* `transaction` field. -/
structure AggSendStep1Request where
  end_user_pubkey : String
  node_id : Int
  «to» : String
  amount : ℚ
  memo : Option String
deriving Repr, DecidableEq

/-- Rust `AggSendStep1Response`. -/
structure AggSendStep1Response where
  session_id : Uuid
  agg_message_1 : AggMessage1
deriving Repr, DecidableEq

/-- Rust `AggSendStep2Request`. -/
structure AggSendStep2Request where
  session_id : Uuid
  node_id : Int
  agg_message_1 : AggMessage1
deriving Repr, DecidableEq

/-- Rust `AggSendStep2Response`. -/
structure AggSendStep2Response where
  partial_signature : PartialSig
  agg_message_2 : AggMessage1
deriving Repr, DecidableEq

/-- Rust `AggregateSignaturesRequest`. -/
structure AggregateSignaturesRequest where
  session_id : Uuid
  partial_signature_2 : PartialSig
  agg_message_2 : AggMessage1
deriving Repr, DecidableEq

/-- The Rust expression `(amount * 1e9) as u64`: multiply the `f64` SOL
amount by 10⁹ and cast to `u64` (saturating truncation toward zero; the
`f64` arithmetic is modelled exactly over ℚ). -/
def lamportsOfSol (amount : ℚ) : Nat :=
  min (amount * 1000000000).floor.toNat (2 ^ 64 - 1)

/-- The message construction of `agg_send_step2` (src/mpc/src/main.rs
lines 193-204): a session carrying a prebuilt transaction yields that
transaction's message bytes; otherwise a SOL transfer message is built
with source / fee payer equal to *this node's* share public key
(`keys_from_db.iter().find(|k| k.node_id == req.node_id).unwrap()` —
panics when absent) and the blockhash fetched by *this* call. -/
def step2_build_message (session : MpcSigningSession) (keys_from_db : List MpcKey)
    (node_id : Int) (recent_blockhash : Blockhash) : RunResult SolMessage :=
  match session.transaction with
  | some tx => .ok tx.message_data
  | none =>
    match keys_from_db.find? (fun k => k.node_id == node_id) with
    | none => .panicked
    | some k =>
      .ok { from_pubkey := k.public_key, to_pubkey := session.to_address,
            lamports := lamportsOfSol session.amount,
            recent_blockhash := recent_blockhash }

/-- The transaction construction of `aggregate_signatures_broadcast`
(src/mpc/src/main.rs lines 247-257): a session carrying a prebuilt
transaction is deserialized as-is; otherwise a SOL transfer is built
with source / fee payer equal to the *aggregate* public key
(`tss::key_agg(..).unwrap()`) and the blockhash fetched by *this* call. -/
def combine_build_tx (tss : Tss) (session : MpcSigningSession) (pubkeys : List Pubkey)
    (recent_blockhash : Blockhash) : RunResult Transaction :=
  match session.transaction with
  | some t => .ok t
  | none =>
    match tss.key_agg pubkeys none with
    | .error _ => .panicked
    | .ok agg_pubkey =>
      .ok ⟨{ from_pubkey := agg_pubkey, to_pubkey := session.to_address,
             lamports := lamportsOfSol session.amount,
             recent_blockhash := recent_blockhash }⟩

/-- Handler `agg_send_step1` (src/mpc/src/main.rs lines 150-171): select the
node's store, load the key share (keypair decode modelled as identity on
the stored private key), run `tss::step_one` (output in `env`), create
the session — with `transaction = None` ("No generic transaction for SOL
send") — and return the session id with the round-1 message.  No
blockhash is fetched and nothing besides the session row is written. -/
def agg_send_step1 (_tss : Tss) (env : Env) (app : AppState)
    (req : AggSendStep1Request) : RunResult AggSendStep1Response × AppState :=
  match app.get_mpc_store req.node_id with
  | .error e => (.err e, app)
  | .ok store =>
    match store.get_key req.end_user_pubkey req.node_id with
    | .error e => (.err e, app)
    | .ok _key =>
      let p := env.step_one_result
      let agg_message_1 := p.1
      let secret_state_1 := p.2
      match store.create_session env.new_uuid env.now req.end_user_pubkey
          secret_state_1 req.«to» req.amount req.memo none with
      | .error e => (.err e, app)
      | .ok q =>
        (.ok { session_id := q.1, agg_message_1 := agg_message_1 },
          app.set_mpc_store req.node_id q.2)

/-- Handler `agg_send_step2` (src/mpc/src/main.rs lines 173-224): select the
node's store, load the (unexpired) session and the key share, call
`tss::step_one` for a *fresh* nonce pair `(agg_message_2,
secret_state_2)`, collect the user's pubkeys, fetch a fresh blockhash,
build the message (`step2_build_message`), compute the partial signature
with `tss::step_two` **using the fresh `secret_state_2`** (`.unwrap()` —
an error panics), store the round-2 data unconditionally, and return the
partial signature with the fresh public message. -/
def agg_send_step2 (tss : Tss) (env : Env) (app : AppState)
    (req : AggSendStep2Request) : RunResult AggSendStep2Response × AppState :=
  match app.get_mpc_store req.node_id with
  | .error e => (.err e, app)
  | .ok store =>
    match store.get_session req.session_id env.now with
    | .error e => (.err e, app)
    | .ok session =>
      match store.get_key session.end_user_pubkey req.node_id with
      | .error e => (.err e, app)
      | .ok key =>
        let keypair := key.private_key
        let p := env.step_one_result
        let agg_message_2 := p.1
        let secret_state_2 := p.2
        let keys_from_db := store.get_keys_for_user session.end_user_pubkey
        let pubkeys := keys_from_db.map (fun k => k.public_key)
        let recent_blockhash := env.blockhash
        match step2_build_message session keys_from_db req.node_id recent_blockhash with
        | .panicked => (.panicked, app)
        | .err e => (.err e, app)
        | .ok message =>
          match tss.step_two keypair message pubkeys [req.agg_message_1] secret_state_2 with
          | .error _ => (.panicked, app)
          | .ok partial_signature =>
            match store.update_session_with_step2_data req.session_id secret_state_2
                (bs58_encode_sig partial_signature) agg_message_2 with
            | .error e => (.err e, app)
            | .ok store2 =>
              (.ok { partial_signature := partial_signature,
                     agg_message_2 := agg_message_2 },
                app.set_mpc_store req.node_id store2)

/-- Handler `aggregate_signatures_broadcast` (src/mpc/src/main.rs lines
227-276): always uses store 1; loads the (unexpired) session and the
user's keys (`keys_from_db[0]` panics on an empty list), fetches a fresh
blockhash, unwraps the stored `secret_state_1` (panic when `None`),
rebuilds the transaction (`combine_build_tx`), computes node 1's partial
signature with `tss::step_two` over the *persisted* round-1 nonces
(`.unwrap()`), combines via `tss::sign_and_broadcast_transaction`
(`.unwrap()` — a failed combine/verify panics), and submits.  The third
component of the result lists the transactions handed to
`send_and_confirm_transaction`; the store is returned untouched in every
branch (the handler performs no database write, no single-use check and
no close). -/
def aggregate_signatures_broadcast (tss : Tss) (env : Env) (app : AppState)
    (req : AggregateSignaturesRequest) :
    RunResult String × AppState × List Transaction :=
  match app.get_mpc_store 1 with
  | .error e => (.err e, app, [])
  | .ok store1 =>
    match store1.get_session req.session_id env.now with
    | .error e => (.err e, app, [])
    | .ok session =>
      match store1.get_keys_for_user session.end_user_pubkey with
      | [] => (.panicked, app, [])
      | key1 :: rest =>
        let keypair1 := key1.private_key
        let pubkeys := (key1 :: rest).map (fun k => k.public_key)
        let recent_blockhash := env.blockhash
        match session.secret_state_1 with
        | none => (.panicked, app, [])
        | some secret_state_1 =>
          match combine_build_tx tss session pubkeys recent_blockhash with
          | .panicked => (.panicked, app, [])
          | .err e => (.err e, app, [])
          | .ok tx =>
            match tss.step_two keypair1 tx.message_data pubkeys [req.agg_message_2]
                secret_state_1 with
            | .error _ => (.panicked, app, [])
            | .ok partial_signature_1 =>
              match tss.sign_and_broadcast_transaction tx pubkeys
                  [partial_signature_1, req.partial_signature_2] with
              | .error _ => (.panicked, app, [])
              | .ok final_tx =>
                match env.send_result with
                | none => (.err .SolanaClientError, app, [final_tx])
                | some tx_sig => (.ok tx_sig, app, [final_tx])

/-- Modelled from the spec: the step1 HTTP body of §6 may carry a
`transaction` field (the prebuilt-swap mode of §4.3).  The source's
`AggSendStep1Request` has no such field, and serde's default
deserialization ignores unknown JSON fields, so the field is dropped at
the boundary. -/
structure Step1WireBody where
  end_user_pubkey : String
  node_id : Int
  «to» : String
  amount : ℚ
  memo : Option String
  transaction : Option Transaction
deriving Repr, DecidableEq

/-- serde deserialization of the step1 wire body into the source's
request struct: every unknown field — in particular `transaction` — is
ignored. -/
def deserializeStep1 (w : Step1WireBody) : AggSendStep1Request :=
  { end_user_pubkey := w.end_user_pubkey, node_id := w.node_id,
    «to» := w.«to», amount := w.amount, memo := w.memo }

/-! ## Concrete fixtures used by counterexamples and witnesses -/

/-- Node 1's key share for user `EU`. -/
def key1 : MpcKey := ⟨"EU", 1, "PK1", "SK1"⟩

/-- Node 2's key share for user `EU`. -/
def key2 : MpcKey := ⟨"EU", 2, "PK2", "SK2"⟩

/-- A freshly created native-transfer session (round-2 columns NULL),
0.5 SOL to `TO`, expiring at time 1000. -/
def sessNative : MpcSigningSession :=
  ⟨7, "EU", some ⟨11, 12⟩, none, none, none, "TO", 1/2, none, none, 1000⟩

/-- The same session after a recorded step2 (partial signature populated). -/
def sessFinal : MpcSigningSession :=
  { sessNative with secret_state_2 := some ⟨1, 2⟩, partial_sig_2 := some "OLD",
                    agg_message_2 := some ⟨"PK2", 2⟩ }

/-- A caller-supplied prebuilt transaction. -/
def txPre : Transaction := ⟨⟨"AGG", "DEST", 1000, 5⟩⟩

/-- A session carrying the prebuilt transaction. -/
def sessPre : MpcSigningSession := { sessNative with transaction := some txPre }

/-- One node's database holding the two key shares and `sessNative`. -/
def storeNative : MpcState := ⟨[key1, key2], [sessNative]⟩

/-- Both nodes' stores holding `sessNative`. -/
def appNative : AppState := ⟨storeNative, storeNative⟩

/-- One node's database holding the two key shares and `sessFinal`. -/
def storeFinal : MpcState := ⟨[key1, key2], [sessFinal]⟩

/-- Both nodes' stores holding `sessFinal`. -/
def appFinal : AppState := ⟨storeFinal, storeFinal⟩

/-- A concrete `tss` oracle: key aggregation yields `AGG`; a partial
signature reveals which private nonces signed (so that signing with the
fresh versus the persisted nonces is observable); combining succeeds. -/
def tssW : Tss :=
  ⟨fun _ _ => .ok "AGG", fun _ _ _ _ s => .ok s.private_nonces, fun t _ _ => .ok t⟩

/-- A `tss` oracle whose combine step always fails verification
(`InvalidSignature`), e.g. because the peer message was tampered with. -/
def tssFail : Tss :=
  { tssW with sign_and_broadcast_transaction := fun _ _ _ => .error .InvalidSignature }

/-- Environment of a node-2 step2 call: clock 10, blockhash 42, fresh
nonces ⟨77, 78⟩. -/
def envW : Env := ⟨9, 10, 42, (⟨"PK2", 78⟩, ⟨77, 78⟩), some "SIG"⟩

/-- Environment of a *second* step2 call: same clock, fresh nonces ⟨87, 88⟩. -/
def envW2 : Env := ⟨9, 10, 42, (⟨"PK2", 88⟩, ⟨87, 88⟩), some "SIG"⟩

/-- Environment of a node-1 step1 call: fresh UUID 9, clock 10, nonces
⟨11, 12⟩. -/
def envStep1 : Env := ⟨9, 10, 42, (⟨"PK1", 12⟩, ⟨11, 12⟩), some "SIG"⟩

/-- A well-formed step2 request for session 7 on node 2, carrying node
1's round-1 message. -/
def req2ok : AggSendStep2Request := ⟨7, 2, ⟨"PK1", 34⟩⟩

/-- A step2 request whose round-1 message claims an attacker-controlled
sender. -/
def reqEvil : AggSendStep2Request := ⟨7, 2, ⟨"EVIL", 34⟩⟩

/-- A combine request for session 7, carrying node 2's partial signature
and round-2 message. -/
def reqComb : AggregateSignaturesRequest := ⟨7, 55, ⟨"PK2", 78⟩⟩

/-- A step1 request for a fractional SOL amount (0.5). -/
def req1half : AggSendStep1Request := ⟨"EU", 1, "TO", 1/2, none⟩

/-- A step1 wire body smuggling a prebuilt transaction whose fee payer
`MALLORY` is not the user's aggregate key. -/
def wireEvil : Step1WireBody := ⟨"EU", 1, "TO", 1, none, some ⟨⟨"MALLORY", "DEST", 5, 5⟩⟩⟩

/-! ## Shared helper lemmas -/

/-- Selection `get_mpc_store` fails only with the `Invalid node_id` request error. -/
theorem get_mpc_store_err {app : AppState} {nid : Int} {e : Error}
    (h : app.get_mpc_store nid = .error e) : e = .InvalidRequest "Invalid node_id" := by
  unfold AppState.get_mpc_store at h
  split at h
  · simp_all
  · split at h <;> simp_all

/-- Lookup `get_session` fails only with `SessionNotFound`. -/
theorem get_session_err {st : MpcState} {id : Uuid} {now : Nat} {e : Error}
    (h : st.get_session id now = .error e) : e = .SessionNotFound := by
  unfold MpcState.get_session at h
  split at h <;> simp_all

/-- Lookup `get_key` fails only with `DatabaseError`. -/
theorem get_key_err {st : MpcState} {eu : String} {nid : Int} {e : Error}
    (h : st.get_key eu nid = .error e) : e = .DatabaseError := by
  unfold MpcState.get_key at h
  split at h <;> simp_all

/-- The step2 message builder either succeeds or panics; it produces no
`Error` value. -/
theorem step2_build_message_not_err {session : MpcSigningSession}
    {keys : List MpcKey} {nid : Int} {bh : Blockhash} {e : Error}
    (h : step2_build_message session keys nid bh = .err e) : False := by
  unfold step2_build_message at h
  split at h
  · simp_all
  · split at h <;> simp_all

/-- The combine transaction builder either succeeds or panics; it
produces no `Error` value. -/
theorem combine_build_tx_not_err {tss : Tss} {session : MpcSigningSession}
    {pubkeys : List Pubkey} {bh : Blockhash} {e : Error}
    (h : combine_build_tx tss session pubkeys bh = .err e) : False := by
  unfold combine_build_tx at h
  split at h
  · simp_all
  · split at h <;> simp_all

/-- Updating the row found by `findSession` is visible through
`findSession` of the updated store. -/
theorem findSession_update {st st2 : MpcState} {id : Uuid} {r : MpcSigningSession}
    (s2 : SecretAggStepOne) (ps : String) (am : AggMessage1)
    (hr : st.findSession id = some r)
    (hu : st.update_session_with_step2_data id s2 ps am = .ok st2) :
    st2.findSession id = some { r with
      secret_state_2 := some s2,
      partial_sig_2 := some ps,
      agg_message_2 := some am } := by
  unfold MpcState.findSession at hr
  have hpr := List.find?_some hr
  simp only [] at hpr
  have hst2 : st2 = { st with sessions := st.sessions.map (fun s =>
      if s.session_id == id then
        { s with
          secret_state_2 := some s2,
          partial_sig_2 := some ps,
          agg_message_2 := some am }
      else s) } := by
    unfold MpcState.update_session_with_step2_data at hu
    exact (Except.ok.inj hu).symm
  subst hst2
  unfold MpcState.findSession
  rw [List.find?_map]
  have hcomp : ((fun s : MpcSigningSession => s.session_id == id) ∘ (fun s =>
      if s.session_id == id then
        { s with
          secret_state_2 := some s2,
          partial_sig_2 := some ps,
          agg_message_2 := some am }
      else s)) = (fun s : MpcSigningSession => s.session_id == id) := by
    funext s
    by_cases h : (s.session_id == id) = true
    · rw [Function.comp_apply, if_pos h]
    · rw [Function.comp_apply, if_neg h]
  rw [hcomp, hr]
  have hid : r.session_id = id := by simpa using hpr
  simp [hid]

/-- Mapping a list by a function that fixes every member is the identity. -/
theorem list_map_self {α : Type} {f : α → α} :
    ∀ {l : List α}, (∀ x ∈ l, f x = x) → l.map f = l
  | [], _ => rfl
  | x :: xs, h => by
    simp only [List.map_cons]
    rw [h x (by simp), list_map_self (fun y hy => h y (by simp [hy]))]

/-! ## Claims -/

/-- Claim C10: for a `session_id` with no matching row in
`mpc_signing_sessions`, `update_session_with_step2_data` returns `Ok`
and changes nothing — a recorded step2 and a no-op on a missing session
are indistinguishable to the caller. -/
theorem C10_update_missing_session_is_silent_noop
    (st : MpcState) (id : Uuid) (s2 : SecretAggStepOne) (ps : String) (am : AggMessage1)
    (h : st.findSession id = none) :
    st.update_session_with_step2_data id s2 ps am = .ok st := by
  unfold MpcState.findSession at h
  unfold MpcState.update_session_with_step2_data
  have hmap := list_map_self (l := st.sessions)
    (f := fun s => if s.session_id == id then
      { s with
        secret_state_2 := some s2,
        partial_sig_2 := some ps,
        agg_message_2 := some am }
      else s)
    (fun x hx => by
      have hx2 := List.find?_eq_none.mp h x hx
      simp [hx2])
  rw [hmap]

/-- Witness for C10 at a concrete store: session 99 does not exist, and
the update succeeds leaving the store unchanged. -/
theorem C10_update_missing_session_witness :
    storeNative.update_session_with_step2_data 99 ⟨1, 2⟩ "sig" ⟨"PK1", 3⟩ = .ok storeNative :=
  C10_update_missing_session_is_silent_noop storeNative 99 ⟨1, 2⟩ "sig" ⟨"PK1", 3⟩ (by decide)

/-- Claim C1 counterexample: on a session whose partial signature is
already populated (`sessFinal`, `partial_sig_2 = some "OLD"`), a step2
call succeeds — it is not rejected (there is no `SessionAlreadyFinalized`
error in the code at all); and two consecutive step2 calls on the same
fresh session both succeed, the second overwriting the first. -/
theorem C1_counterexample :
    ((appFinal.mpc_store_2.findSession 7).map (fun s => s.partial_sig_2) = some (some "OLD")
      ∧ (agg_send_step2 tssW envW appFinal req2ok).1 = .ok ⟨77, ⟨"PK2", 78⟩⟩)
    ∧ (((agg_send_step2 tssW envW appNative req2ok).2.mpc_store_2.findSession 7).map
          (fun s => s.partial_sig_2) = some (some "77")
      ∧ (agg_send_step2 tssW envW2 (agg_send_step2 tssW envW appNative req2ok).2 req2ok).1
          = .ok ⟨87, ⟨"PK2", 88⟩⟩) :=
  ⟨⟨rfl, rfl⟩, ⟨rfl, rfl⟩⟩

/-- Claim C1 (amended): `update_session_with_step2_data` is an
unconditional `UPDATE ... WHERE session_id = $4`: whenever the row
exists — in particular when `partial_sig_2` is already populated — it
succeeds and overwrites `secret_state_2`, `partial_sig_2` and
`agg_message_2`; there is no `our_partial_sig IS NULL` condition and no
`SessionAlreadyFinalized` error (the `Error` enum has no such variant),
so a second step2 call on the same session succeeds. -/
theorem C1_record_step2_unconditional_overwrite
    (st : MpcState) (id : Uuid) (r : MpcSigningSession) (s2 : SecretAggStepOne)
    (ps : String) (am : AggMessage1)
    (hr : st.findSession id = some r) (halready : r.partial_sig_2.isSome = true) :
    ∃ st2, st.update_session_with_step2_data id s2 ps am = .ok st2
      ∧ st2.findSession id = some { r with
          secret_state_2 := some s2,
          partial_sig_2 := some ps,
          agg_message_2 := some am } :=
  ⟨_, rfl, findSession_update s2 ps am hr rfl⟩

/-- Witness for the amended C1: updating session 7 of `storeFinal`, whose
partial signature is already `some "OLD"`, succeeds and overwrites it. -/
theorem C1_record_step2_witness :
    (storeFinal.update_session_with_step2_data 7 ⟨77, 78⟩ "77" ⟨"PK2", 78⟩).map
        (fun st2 => st2.findSession 7)
      = .ok (some { sessFinal with
          secret_state_2 := some ⟨77, 78⟩,
          partial_sig_2 := some "77",
          agg_message_2 := some ⟨"PK2", 78⟩ }) := by
  obtain ⟨st2, h1, h2⟩ := C1_record_step2_unconditional_overwrite storeFinal 7 sessFinal
    ⟨77, 78⟩ "77" ⟨"PK2", 78⟩ rfl rfl
  rw [h1]
  simp only [Except.map, h2]

/-- Claim C6 counterexample: `aggregate_signatures_broadcast` accepts a
session whose `partial_sig_2` is already set, succeeds, submits the
transaction, leaves both stores untouched, and the session is still
loadable afterwards — there is no single-use check and no close. -/
theorem C6_counterexample :
    ((appFinal.mpc_store_1.findSession 7).map (fun s => s.partial_sig_2) = some (some "OLD"))
    ∧ (aggregate_signatures_broadcast tssW envW appFinal reqComb).1 = .ok "SIG"
    ∧ (aggregate_signatures_broadcast tssW envW appFinal reqComb).2.1 = appFinal
    ∧ ((aggregate_signatures_broadcast tssW envW appFinal reqComb).2.2).length = 1
    ∧ appFinal.mpc_store_1.get_session 7 envW.now = .ok sessFinal :=
  ⟨rfl, rfl, rfl, rfl, rfl⟩

/-- Claim C6 (amended): `aggregate_signatures_broadcast` never writes to
either store in any branch: it performs no single-use rejection on
`our_partial_sig` and never closes the session, which therefore remains
loadable (until expiry) even after a successful broadcast. -/
theorem C6_combine_never_mutates_store (tss : Tss) (env : Env) (app : AppState)
    (req : AggregateSignaturesRequest) :
    (aggregate_signatures_broadcast tss env app req).2.1 = app := by
  unfold aggregate_signatures_broadcast
  simp only []
  repeat' split
  all_goals rfl

/-- Round-trip of store selection and write-back: if `get_mpc_store`
succeeded for a node id, then after `set_mpc_store` for the same node id,
`get_mpc_store` returns the written store. -/
theorem get_set_mpc_store {app : AppState} {nid : Int} {st0 : MpcState}
    (h : app.get_mpc_store nid = .ok st0) (st : MpcState) :
    (app.set_mpc_store nid st).get_mpc_store nid = .ok st := by
  unfold AppState.get_mpc_store at h
  unfold AppState.get_mpc_store AppState.set_mpc_store
  by_cases h1 : nid = 1
  · simp [h1]
  · by_cases h2 : nid = 2
    · simp [h1, h2]
    · simp [h1, h2] at h

/-- Claim C3 counterexample: a step2 request whose `agg_message_1.sender`
(`EVIL`) differs from the other node's share public key (`PK1`) is not
rejected: the handler computes and returns a partial signature, never
`MismatchMessages`. -/
theorem C3_counterexample :
    reqEvil.agg_message_1.sender ≠ key1.public_key
    ∧ (agg_send_step2 tssW envW appNative reqEvil).1 = .ok ⟨77, ⟨"PK2", 78⟩⟩ :=
  ⟨by decide, rfl⟩

/-- Claim C3 (amended): `agg_send_step2` performs no validation of
`peer_agg_message_1.sender` and can never return `MismatchMessages`: its
only error outcomes are `InvalidRequest` (bad node id),
`SessionNotFound` and `DatabaseError`, and any error from the underlying
signing step is `.unwrap()`ed into a panic, for every oracle behaviour,
environment, state and request. -/
theorem C3_step2_never_returns_mismatch (tss : Tss) (env : Env) (app : AppState)
    (req : AggSendStep2Request) :
    (agg_send_step2 tss env app req).1 ≠ .err .MismatchMessages := by
  unfold agg_send_step2
  simp only []
  split
  · next e heq => have he := get_mpc_store_err heq; subst he; simp
  · next store heq =>
    split
    · next e heq2 => have he := get_session_err heq2; subst he; simp
    · next session heq2 =>
      split
      · next e heq3 => have he := get_key_err heq3; subst he; simp
      · next key heq3 =>
        split
        · simp
        · next e heq4 => exact absurd heq4 (fun hh => step2_build_message_not_err hh)
        · next message heq4 =>
          split
          · simp
          · next ps heq5 =>
            split
            · next e heq6 =>
              simp [MpcState.update_session_with_step2_data] at heq6
            · simp

/-- Witness for the amended C3 at the concrete attacker request. -/
theorem C3_step2_never_returns_mismatch_witness :
    (agg_send_step2 tssW envW appNative reqEvil).1 ≠ .err .MismatchMessages :=
  C3_step2_never_returns_mismatch tssW envW appNative reqEvil

/-- Claim C4 counterexample: with a combine step whose
aggregate-signature verification fails (`tssFail` always returns
`InvalidSignature`), `aggregate_signatures_broadcast` panics — the
`.unwrap()` on `sign_and_broadcast_transaction` — instead of returning
`InvalidSignature`, and no transaction is submitted. -/
theorem C4_counterexample :
    aggregate_signatures_broadcast tssFail envW appNative reqComb = (.panicked, appNative, [])
    ∧ tssFail.sign_and_broadcast_transaction ⟨⟨"AGG", "TO", 0, 42⟩⟩ ["PK1", "PK2"] [11, 55]
        = .error .InvalidSignature :=
  ⟨rfl, rfl⟩

/-- Claim C4 (amended): when the combine/verify step fails (for any
tampered input: the oracle's `sign_and_broadcast_transaction` never
succeeds), `aggregate_signatures_broadcast` submits nothing to the
ledger and returns neither success nor the `InvalidSignature` error —
the failure surfaces as a panic (HTTP 500), because the handler
`.unwrap()`s the result. -/
theorem C4_combine_failed_verify_never_submits (tss : Tss) (env : Env) (app : AppState)
    (req : AggregateSignaturesRequest)
    (hfail : ∀ t p sigs, (tss.sign_and_broadcast_transaction t p sigs).isOk = false) :
    (aggregate_signatures_broadcast tss env app req).2.2 = []
    ∧ (∀ s, (aggregate_signatures_broadcast tss env app req).1 ≠ .ok s)
    ∧ (aggregate_signatures_broadcast tss env app req).1 ≠ .err .InvalidSignature := by
  unfold aggregate_signatures_broadcast
  simp only []
  split
  · next e heq => have he := get_mpc_store_err heq; subst he; exact ⟨rfl, by simp, by simp⟩
  · next store1 heq =>
    split
    · next e heq2 => have he := get_session_err heq2; subst he; exact ⟨rfl, by simp, by simp⟩
    · next session heq2 =>
      split
      · exact ⟨rfl, by simp, by simp⟩
      · next k1 rest heq3 =>
        split
        · exact ⟨rfl, by simp, by simp⟩
        · next s1 heq4 =>
          split
          · exact ⟨rfl, by simp, by simp⟩
          · next e heq5 => exact absurd heq5 (fun hh => combine_build_tx_not_err hh)
          · next tx heq5 =>
            split
            · exact ⟨rfl, by simp, by simp⟩
            · next ps1 heq6 =>
              split
              · exact ⟨rfl, by simp, by simp⟩
              · next ftx heq7 =>
                have := hfail tx ((k1 :: rest).map (fun k => k.public_key))
                  [ps1, req.partial_signature_2]
                rw [heq7] at this
                simp [Except.isOk, Except.toBool] at this

/-- Witness for the amended C4 at the concrete failing oracle. -/
theorem C4_combine_failed_verify_witness :
    (aggregate_signatures_broadcast tssFail envW appNative reqComb).2.2 = [] :=
  (C4_combine_failed_verify_never_submits tssFail envW appNative reqComb
    (fun _ _ _ => rfl)).1

/-- Claim C5 counterexample: a step2 call generates a fresh nonce pair
(this call's `tss::step_one` output ⟨77, 78⟩), signs with it — the
returned partial signature is 77, the fresh private nonces, whereas
signing with the session's persisted round-1 nonces ⟨11, 12⟩ would have
produced 11 — and persists it into `secret_state_2`. -/
theorem C5_counterexample :
    (agg_send_step2 tssW envW appNative req2ok).1 = .ok ⟨77, ⟨"PK2", 78⟩⟩
    ∧ ((agg_send_step2 tssW envW appNative req2ok).2.mpc_store_2.findSession 7).map
        (fun s => s.secret_state_2) = some (some ⟨77, 78⟩)
    ∧ envW.step_one_result.2 = ⟨77, 78⟩
    ∧ sessNative.secret_state_1 = some ⟨11, 12⟩
    ∧ tssW.step_two "SK2" ⟨"PK2", "TO", 0, 42⟩ ["PK1", "PK2"] [req2ok.agg_message_1] ⟨11, 12⟩
        = .ok 11
    ∧ (⟨77, 78⟩ : SecretAggStepOne) ≠ ⟨11, 12⟩ :=
  ⟨rfl, rfl, rfl, rfl, rfl, by decide⟩

/-- Claim C5 (amended): whenever `agg_send_step2` succeeds, the fresh
nonce pair generated by this call's `tss::step_one` — not the session's
persisted round-1 nonces — is what signs: the returned `agg_message_2`
is the fresh public message, the partial signature is `tss::step_two`
applied to the fresh `secret_state_2 = env.step_one_result.2`, and that
fresh secret state (with the encoded signature and fresh public message)
is what `update_session_with_step2_data` persists. -/
theorem C5_step2_signs_with_fresh_nonces (tss : Tss) (env : Env) (app : AppState)
    (req : AggSendStep2Request) (resp : AggSendStep2Response)
    (h : (agg_send_step2 tss env app req).1 = .ok resp) :
    resp.agg_message_2 = env.step_one_result.1
    ∧ (∃ keypair message pubkeys,
        tss.step_two keypair message pubkeys [req.agg_message_1] env.step_one_result.2
          = .ok resp.partial_signature)
    ∧ (∃ store store2, app.get_mpc_store req.node_id = .ok store
        ∧ store.update_session_with_step2_data req.session_id env.step_one_result.2
            (bs58_encode_sig resp.partial_signature) env.step_one_result.1 = .ok store2
        ∧ (agg_send_step2 tss env app req).2 = app.set_mpc_store req.node_id store2) := by
  unfold agg_send_step2 at h ⊢
  simp only [] at h ⊢
  split at h
  · simp at h
  · next store heq =>
    split at h
    · simp at h
    · next session heq2 =>
      split at h
      · simp at h
      · next key heq3 =>
        split at h
        · simp at h
        · simp at h
        · next message heq4 =>
          split at h
          · simp at h
          · next ps heq5 =>
            split at h
            · simp at h
            · next store2 heq6 =>
              simp only [RunResult.ok.injEq] at h
              subst h
              refine ⟨rfl, ⟨key.private_key, message, _, heq5⟩, store, store2, heq, ?_, ?_⟩
              · exact heq6
              · rfl

/-- Witness for the amended C5 at a concrete successful step2 call. -/
theorem C5_step2_signs_with_fresh_nonces_witness :
    (⟨77, ⟨"PK2", 78⟩⟩ : AggSendStep2Response).agg_message_2 = envW.step_one_result.1 :=
  (C5_step2_signs_with_fresh_nonces tssW envW appNative req2ok ⟨77, ⟨"PK2", 78⟩⟩ rfl).1

/-- Projection of a `RunResult` to its success value. -/
def RunResult.toOk {α : Type} : RunResult α → Option α
  | .ok a => some a
  | .err _ => none
  | .panicked => none

/-- Functorial map on `RunResult` (used to compare build results of
different types). -/
def RunResult.rmap {α β : Type} (f : α → β) : RunResult α → RunResult β
  | .ok a => .ok (f a)
  | .err e => .err e
  | .panicked => .panicked

/-- Claim C2 counterexample: for the same native-transfer session and
even the *same* blockhash (42), the message signed at step2 differs from
the message signed at combine: step2 builds the transfer from this
node's share public key (`PK2`) while combine builds it from the
aggregate key (`AGG`), so the two byte sequences cannot be identical
(their fee-payer fields differ). -/
theorem C2_counterexample :
    step2_build_message sessNative [key1, key2] 2 42
      ≠ (combine_build_tx tssW sessNative ["PK1", "PK2"] 42).rmap Transaction.message_data := by
  intro h
  have h1 : (step2_build_message sessNative [key1, key2] 2 42).toOk.map
      (fun m => m.from_pubkey) = some "PK2" := rfl
  rw [h] at h1
  have h2 : ((combine_build_tx tssW sessNative ["PK1", "PK2"] 42).rmap
      Transaction.message_data).toOk.map (fun m => m.from_pubkey) = some "AGG" := rfl
  rw [h1] at h2
  simp at h2

/-- Claim C2 (amended): the step2 and combine message bytes coincide
only for sessions carrying a prebuilt transaction (both sides
deserialize the persisted transaction, regardless of the blockhashes
fetched in either round).  For native-transfer sessions each round
builds its own message: step2 uses the blockhash fetched during the
step2 call and this node's share public key as fee payer, while combine
uses the blockhash fetched during the combine call and the aggregate key
as fee payer — nothing is fetched at step1 or persisted, and the two
messages differ in general. -/
theorem C2_message_binding_amended (session : MpcSigningSession) (keys : List MpcKey)
    (node_id : Int) (pubkeys : List Pubkey) (tss : Tss) (bh1 bh2 : Blockhash) :
    (∀ tx, session.transaction = some tx →
      step2_build_message session keys node_id bh1 = .ok tx.message_data
      ∧ combine_build_tx tss session pubkeys bh2 = .ok tx)
    ∧ (session.transaction = none →
      (∀ k, keys.find? (fun k2 => k2.node_id == node_id) = some k →
        step2_build_message session keys node_id bh1 = .ok
          { from_pubkey := k.public_key, to_pubkey := session.to_address,
            lamports := lamportsOfSol session.amount, recent_blockhash := bh1 })
      ∧ (∀ agg, tss.key_agg pubkeys none = .ok agg →
        combine_build_tx tss session pubkeys bh2 = .ok
          ⟨{ from_pubkey := agg, to_pubkey := session.to_address,
             lamports := lamportsOfSol session.amount, recent_blockhash := bh2 }⟩)) := by
  refine ⟨?_, ?_⟩
  · intro tx htx
    refine ⟨?_, ?_⟩
    · unfold step2_build_message
      rw [htx]
    · unfold combine_build_tx
      rw [htx]
  · intro hnone
    refine ⟨?_, ?_⟩
    · intro k hk
      unfold step2_build_message
      rw [hnone, hk]
    · intro agg hagg
      unfold combine_build_tx
      rw [hnone, hagg]

/-- Witness for the amended C2: for the prebuilt session, step2 (with
blockhash 42) and combine (with blockhash 43) produce the same message
bytes — those of the persisted transaction. -/
theorem C2_message_binding_witness :
    step2_build_message sessPre [key1, key2] 2 42 = .ok txPre.message_data
    ∧ combine_build_tx tssW sessPre ["PK1", "PK2"] 43 = .ok txPre :=
  (C2_message_binding_amended sessPre [key1, key2] 2 ["PK1", "PK2"] tssW 42 43).1 txPre rfl

/-- On a list of sessions with pairwise-distinct ids, searching with the
conjunctive predicate of the `get_session` query (`session_id = $1 AND
expires_at > NOW()`) finds a row exactly when the id-only search finds
that row and it is unexpired. -/
theorem find?_conj_iff (l : List MpcSigningSession) (id : Uuid) (now : Nat)
    (hnodup : (l.map (fun s => s.session_id)).Nodup) (r : MpcSigningSession) :
    l.find? (fun s => s.session_id == id && decide (now < s.expires_at)) = some r
      ↔ l.find? (fun s => s.session_id == id) = some r ∧ now < r.expires_at := by
  induction l with
  | nil => simp
  | cons x xs ih =>
    have hnodup2 : (xs.map (fun s => s.session_id)).Nodup :=
      (List.nodup_cons.mp (by simpa using hnodup)).2
    have hnotin : x.session_id ∉ xs.map (fun s => s.session_id) :=
      (List.nodup_cons.mp (by simpa using hnodup)).1
    by_cases hid : (x.session_id == id) = true
    · by_cases hexp : now < x.expires_at
      · rw [@List.find?_cons_of_pos _
            (fun s => s.session_id == id && decide (now < s.expires_at)) x xs
            (by simp [hid, hexp]),
          @List.find?_cons_of_pos _ (fun s => s.session_id == id) x xs hid]
        constructor
        · intro h
          have hx := Option.some.inj h
          subst hx
          exact ⟨rfl, hexp⟩
        · intro h
          exact h.1
      · rw [@List.find?_cons_of_neg _
            (fun s => s.session_id == id && decide (now < s.expires_at)) x xs
            (by simp [hid, hexp]),
          @List.find?_cons_of_pos _ (fun s => s.session_id == id) x xs hid]
        constructor
        · intro h
          exfalso
          have hr := List.mem_of_find?_eq_some h
          have hpr := List.find?_some h
          have hrid : r.session_id = id := by
            have hp2 : r.session_id = id ∧ now < r.expires_at := by simpa using hpr
            exact hp2.1
          apply hnotin
          have hxid : x.session_id = id := by simpa using hid
          rw [hxid, ← hrid]
          exact List.mem_map.mpr ⟨r, hr, rfl⟩
        · intro h
          have hx := Option.some.inj h.1
          subst hx
          exact absurd h.2 hexp
    · rw [@List.find?_cons_of_neg _
          (fun s => s.session_id == id && decide (now < s.expires_at)) x xs
          (by simp [hid]),
        @List.find?_cons_of_neg _ (fun s => s.session_id == id) x xs hid]
      exact ih hnodup2

/-- Claim C7: on a store whose session ids are distinct (the column is
the primary key), `get_session` returns the stored record exactly when
the row exists and its `expires_at` is strictly in the future; in every
other case (missing row or past expiry) it returns `SessionNotFound`;
and `create_session` stamps the new row with `expires_at = created_at +
5 minutes`. -/
theorem C7_session_expiry (st : MpcState) (id : Uuid) (now : Nat)
    (hnodup : (st.sessions.map (fun s => s.session_id)).Nodup) :
    (∀ r, st.get_session id now = .ok r
      ↔ st.findSession id = some r ∧ now < r.expires_at)
    ∧ (st.get_session id now = .error .SessionNotFound
      ↔ ¬ ∃ r, st.findSession id = some r ∧ now < r.expires_at)
    ∧ (∀ uuid now2 eu s1 toa amt memo tx out,
        st.create_session uuid now2 eu s1 toa amt memo tx = .ok out →
        out.1 = uuid ∧ ∃ row, out.2.findSession uuid = some row
          ∧ row.expires_at = now2 + 5 * 60) := by
  refine ⟨?_, ?_, ?_⟩
  · intro r
    unfold MpcState.get_session MpcState.findSession
    constructor
    · intro h
      split at h
      · next s hs =>
        have hsr2 : s = r := Except.ok.inj h
        subst hsr2
        exact (find?_conj_iff st.sessions id now hnodup s).mp hs
      · exact absurd h (by simp)
    · intro h
      have := (find?_conj_iff st.sessions id now hnodup r).mpr h
      rw [this]
  · unfold MpcState.get_session MpcState.findSession
    constructor
    · intro h hex
      obtain ⟨r, hr1, hr2⟩ := hex
      have := (find?_conj_iff st.sessions id now hnodup r).mpr ⟨hr1, hr2⟩
      rw [this] at h
      exact absurd h (by simp)
    · intro h
      cases hfind : st.sessions.find?
          (fun s => s.session_id == id && decide (now < s.expires_at)) with
      | none => rfl
      | some r =>
        exfalso
        apply h
        have := (find?_conj_iff st.sessions id now hnodup r).mp hfind
        exact ⟨r, this⟩
  · intro uuid now2 eu s1 toa amt memo tx out h
    unfold MpcState.create_session at h
    simp only [] at h
    split at h
    · exact absurd h (by simp)
    · next hguard =>
      have hout := (Except.ok.inj h).symm
      refine ⟨by rw [hout], ?_⟩
      rw [hout]
      refine ⟨{ session_id := uuid, end_user_pubkey := eu, secret_state_1 := some s1,
                secret_state_2 := none, partial_sig_2 := none, agg_message_2 := none,
                to_address := toa, amount := amt, memo := memo, transaction := tx,
                expires_at := now2 + 5 * 60 }, ?_, rfl⟩
      unfold MpcState.findSession
      exact @List.find?_cons_of_pos _
        (fun s : MpcSigningSession => s.session_id == uuid) _ _ (by simp)

/-- Witness for C7 at a concrete store and clock: session 7 exists,
expires at 1000, and is returned at time 10. -/
theorem C7_session_expiry_witness :
    storeNative.get_session 7 10 = .ok sessNative :=
  ((C7_session_expiry storeNative 7 10 (by decide)).1 sessNative).mpr ⟨rfl, by decide⟩

/-- The truncating conversion at the concrete fractional amount:
`(0.5 * 1e9) as u64 = 500000000`. -/
theorem lamportsOfSol_half : lamportsOfSol (1/2) = 500000000 := by
  unfold lamportsOfSol
  have h3 : ((1/2 : ℚ) * 1000000000) = (500000000 : ℚ) := by norm_num
  rw [h3]
  have h4 : ((500000000 : ℚ)).floor = (500000000 : ℤ) := by
    rw [Rat.floor_def']
    norm_num
  rw [h4]
  decide

/-- What a successful `agg_send_step1` did: the response carries the
fresh UUID and the fresh round-1 message, and a session row was created
(in the node's store, written back into the app state) holding the
request's amount unchanged, `transaction = None`, and the five-minute
expiry. -/
theorem step1_ok_spec (tss : Tss) (env : Env) (app : AppState)
    (req : AggSendStep1Request) (resp : AggSendStep1Response)
    (h : (agg_send_step1 tss env app req).1 = .ok resp) :
    resp.session_id = env.new_uuid
    ∧ resp.agg_message_1 = env.step_one_result.1
    ∧ ∃ store store2, app.get_mpc_store req.node_id = .ok store
        ∧ store.create_session env.new_uuid env.now req.end_user_pubkey
            env.step_one_result.2 req.«to» req.amount req.memo none
            = .ok (resp.session_id, store2)
        ∧ (agg_send_step1 tss env app req).2 = app.set_mpc_store req.node_id store2
        ∧ ∃ row, store2.findSession resp.session_id = some row
            ∧ row.amount = req.amount ∧ row.transaction = none
            ∧ row.expires_at = env.now + 5 * 60 := by
  unfold agg_send_step1 at h ⊢
  simp only [] at h ⊢
  split at h
  · simp at h
  · next store heq =>
    split at h
    · simp at h
    · next key heq2 =>
      split at h
      · simp at h
      · next q heq3 =>
        simp only [RunResult.ok.injEq] at h
        subst h
        have heq3b := heq3
        unfold MpcState.create_session at heq3b
        simp only [] at heq3b
        split at heq3b
        · exact absurd heq3b (by simp)
        · next hguard =>
          have hq := Except.ok.inj heq3b
          refine ⟨by rw [← hq], rfl, store, q.2, heq, ?_, ?_, ?_⟩
          · exact heq3
          · simp only [heq, heq2, heq3]
          · rw [← hq]
            refine ⟨{ session_id := env.new_uuid, end_user_pubkey := req.end_user_pubkey,
                      secret_state_1 := some env.step_one_result.2, secret_state_2 := none,
                      partial_sig_2 := none, agg_message_2 := none,
                      to_address := req.«to», amount := req.amount, memo := req.memo,
                      transaction := none, expires_at := env.now + 5 * 60 },
                    ?_, rfl, rfl, rfl⟩
            unfold MpcState.findSession
            exact @List.find?_cons_of_pos _
              (fun s : MpcSigningSession => s.session_id == env.new_uuid) _ _ (by simp)

/-- Claim C8 counterexample: step1 accepts a fractional f64 SOL amount
(0.5): the call succeeds, the session row persists the non-integer
rational 1/2 as-is (no u64 lamports value), and only the signing-time
conversion multiplies by 10⁹ and truncates. -/
theorem C8_counterexample :
    (agg_send_step1 tssW envStep1 appNative req1half).1 = .ok ⟨9, ⟨"PK1", 12⟩⟩
    ∧ ((agg_send_step1 tssW envStep1 appNative req1half).2.mpc_store_1.findSession 9).map
        (fun s => s.amount) = some (1/2 : ℚ)
    ∧ req1half.amount = 1/2
    ∧ (¬ ∃ z : ℤ, ((1/2 : ℚ)) = (z : ℚ))
    ∧ lamportsOfSol (1/2) = 500000000 := by
  refine ⟨rfl, rfl, rfl, ?_, lamportsOfSol_half⟩
  rintro ⟨z, hz⟩
  have h1 : (1 : ℚ) = 2 * (z : ℚ) := by
    have h0 : (2 : ℚ) * (1/2 : ℚ) = 1 := by norm_num
    rw [← h0, hz]
  have h2 : (1 : ℤ) = 2 * z := by exact_mod_cast h1
  omega

/-- Claim C8 (amended): the amount crosses the step1 JSON boundary as an
`f64` SOL value (modelled exactly as a rational), is persisted in the
session unchanged (not as integer lamports), and is converted to an
integer lamports value only when the message is built at signing time,
via the saturating truncation `(amount * 1e9) as u64`. -/
theorem C8_amount_f64_sol_converted_at_signing (tss : Tss) (env : Env)
    (app : AppState) (req : AggSendStep1Request) (resp : AggSendStep1Response)
    (h : (agg_send_step1 tss env app req).1 = .ok resp) :
    (∃ store store2 row, app.get_mpc_store req.node_id = .ok store
      ∧ (agg_send_step1 tss env app req).2 = app.set_mpc_store req.node_id store2
      ∧ store2.findSession resp.session_id = some row
      ∧ row.amount = req.amount)
    ∧ (∀ session keys nid bh m, session.transaction = none →
        step2_build_message session keys nid bh = .ok m →
        m.lamports = lamportsOfSol session.amount) := by
  obtain ⟨h1, h2, store, store2, h3, h4, h5, row, h6, h7, h8, h9⟩ :=
    step1_ok_spec tss env app req resp h
  refine ⟨⟨store, store2, row, h3, h5, h6, h7⟩, ?_⟩
  intro session keys nid bh m htx hbuild
  unfold step2_build_message at hbuild
  split at hbuild
  · next tx htx2 =>
    rw [htx] at htx2
    exact absurd htx2 (by simp)
  · split at hbuild
    · exact absurd hbuild (by simp)
    · next k hk =>
      have hm := (RunResult.ok.inj hbuild).symm
      rw [hm]

/-- Witness for the amended C8: the message built by step2 for
`sessNative` carries `lamportsOfSol 0.5` lamports. -/
theorem C8_conversion_witness :
    ({ from_pubkey := "PK2", to_pubkey := "TO", lamports := lamportsOfSol (1/2),
       recent_blockhash := 42 } : SolMessage).lamports = lamportsOfSol sessNative.amount :=
  (C8_amount_f64_sol_converted_at_signing tssW envStep1 appNative req1half
      ⟨9, ⟨"PK1", 12⟩⟩ rfl).2 sessNative [key1, key2] 2 42
    { from_pubkey := "PK2", to_pubkey := "TO", lamports := lamportsOfSol (1/2),
      recent_blockhash := 42 } rfl rfl

/-- Claim C9 counterexample: a step1 body smuggling a prebuilt
transaction whose fee payer `MALLORY` differs from the aggregate key
`AGG` is not rejected: the transaction field is dropped at
deserialization, the call succeeds, and a session row (with
`transaction = None`) is persisted. -/
theorem C9_counterexample :
    wireEvil.transaction = some ⟨⟨"MALLORY", "DEST", 5, 5⟩⟩
    ∧ tssW.key_agg ["PK1", "PK2"] none = .ok "AGG"
    ∧ ("MALLORY" : Pubkey) ≠ "AGG"
    ∧ (agg_send_step1 tssW envStep1 appNative (deserializeStep1 wireEvil)).1
        = .ok ⟨9, ⟨"PK1", 12⟩⟩
    ∧ ((agg_send_step1 tssW envStep1 appNative
          (deserializeStep1 wireEvil)).2.mpc_store_1.findSession 9).map
        (fun s => s.transaction) = some none :=
  ⟨rfl, rfl, by decide, rfl, rfl⟩

/-- Claim C9 (amended): the source's step1 request type has no
`transaction` field, so a prebuilt transaction in the body is ignored by
deserialization: step1 behaves identically with and without it, performs
no fee-payer validation against it, and on success persists a session
whose `transaction` column is `None`. -/
theorem C9_step1_ignores_prebuilt_transaction (tss : Tss) (env : Env) (app : AppState)
    (w : Step1WireBody) :
    agg_send_step1 tss env app (deserializeStep1 w)
      = agg_send_step1 tss env app (deserializeStep1 { w with transaction := none })
    ∧ (∀ resp, (agg_send_step1 tss env app (deserializeStep1 w)).1 = .ok resp →
        ∃ store2 row, (agg_send_step1 tss env app (deserializeStep1 w)).2
            = app.set_mpc_store w.node_id store2
          ∧ store2.findSession resp.session_id = some row
          ∧ row.transaction = none) := by
  refine ⟨rfl, ?_⟩
  intro resp h
  obtain ⟨h1, h2, store, store2, h3, h4, h5, row, h6, h7, h8, h9⟩ :=
    step1_ok_spec tss env app (deserializeStep1 w) resp h
  exact ⟨store2, row, h5, h6, h8⟩

/-- Witness for the amended C9: the concrete smuggling body and its
transaction-stripped variant produce identical step1 results. -/
theorem C9_step1_ignores_witness :
    agg_send_step1 tssW envStep1 appNative (deserializeStep1 wireEvil)
      = agg_send_step1 tssW envStep1 appNative
          (deserializeStep1 { wireEvil with transaction := none }) :=
  (C9_step1_ignores_prebuilt_transaction tssW envStep1 appNative wireEvil).1

end Mpc
